import Mathlib

/-
Verification of the NetRedirect bridge core (src/src/lib.rs) against its
natural-language specification.

The embedding models the pure data transformations of the source:
  - bytes are `Nat` (values < 256 in practice; the code never computes on them),
  - `NetworkState` mirrors the Rust `NetworkState` struct, with the two
    `Option<TcpStream>` fields abstracted to presence booleans (the model
    records the bytes written to each stream in explicit logs),
  - the hook functions `hooked_recv` / `hooked_send` become functions of the
    state plus the environment's answers for the original WinAPI calls,
  - one iteration of the `kore_connection_main` polling loop becomes the step
    function `kore_connection_step`, taking the current monotonic time in
    milliseconds and an environment record holding the outcome of the
    connect / read / write / ping-write system calls of that iteration.
-/

namespace NetRedirect

/-- Constant from lib.rs line 10: TCP port of the agent endpoint. -/
def XKORE_SERVER_PORT : Nat := 2350

/-- Constant from lib.rs line 11: read buffer size in bytes. -/
def BUF_SIZE : Nat := 4096

/-- Constant from lib.rs line 13: minimum gap (ms) the reconnect guard checks. -/
def RECONNECT_INTERVAL : Nat := 3000

/-- Constant from lib.rs line 14: keep-alive interval in ms. -/
def PING_INTERVAL : Nat := 5000

/-- Constant from lib.rs line 15: poll sleep time in ms. -/
def SLEEP_TIME : Nat := 10

/-- Winsock `SOCKET_ERROR` return value. -/
def SOCKET_ERROR : Int := -1

/-- Mirror of the Rust `PacketType` enum (lib.rs lines 17-21). -/
inductive PacketType where
  | Received
  | Sent

/-- Mirror of the Rust `NetworkState` struct (lib.rs lines 23-29).
`kore_client` / `ro_server` record only the presence of the corresponding
`Option<TcpStream>`; bytes written to those streams are returned in logs. -/
structure NetworkState where
  kore_client : Bool
  ro_server : Bool
  kore_alive : Bool
  send_buf : List Nat
  xkore_send_buf : List Nat
deriving DecidableEq

/-- The 3-byte-header framing performed inline in `send_data_to_kore`
(lib.rs lines 97-105): `[tag][len_lo][len_hi][payload]`, where the length
field is the payload length truncated to 16 bits (`as u16`) in
little-endian order (`to_le_bytes`). -/
def encodeFrame (tag : Nat) (payload : List Nat) : List Nat :=
  let len := payload.length % 65536
  tag :: (len % 256) :: (len / 256 % 256) :: payload

/-- Mirror of `send_data_to_kore` (lib.rs lines 95-109): when `kore_alive`,
frame the buffer with tag `R` (82) or `S` (83) and append the framed bytes to
`xkore_send_buf`; otherwise do nothing. -/
def send_data_to_kore (state : NetworkState) (buffer : List Nat)
    (packet_type : PacketType) : NetworkState :=
  if state.kore_alive then
    let tag : Nat :=
      match packet_type with
      | PacketType.Received => 82
      | PacketType.Sent => 83
    { state with xkore_send_buf := state.xkore_send_buf ++ encodeFrame tag buffer }
  else
    state

/-- The frame parse implicit in `process_packet` (lib.rs lines 188-207):
with fewer than 3 bytes nothing is parsed; otherwise the tag is byte 0 and
the payload is everything after the 3-byte header (`&data[3..]`) -- the
declared length field (bytes 1 and 2) is never consulted. -/
def decodeFrame (data : List Nat) : Option (Nat × List Nat) :=
  match data with
  | t :: _ :: _ :: rest => some (t, rest)
  | _ => none

/-- Mirror of `process_packet` (lib.rs lines 188-207).  Returns the updated
state together with the list of byte sequences written to the `ro_server`
stream (the write result is discarded by the source, `let _ = ...`). -/
def process_packet (data : List Nat) (state : NetworkState) :
    NetworkState × List (List Nat) :=
  if data.length < 3 then
    (state, [])
  else
    match data.headI with
    | 83 =>
      if state.ro_server then (state, [data.drop 3]) else (state, [])
    | 82 =>
      ({ state with send_buf := state.send_buf ++ data.drop 3 }, [])
    | 75 =>
      (state, [])
    | _ =>
      (state, [])

/-- Mirror of `hooked_recv` (lib.rs lines 47-64).  The environment's answer
for the original `recv` call is `none` for `SOCKET_ERROR` and `some bytes`
for a successful receive of `bytes` into the application's buffer.  Returns
the updated state, the `i32` value returned to the application, and the bytes
that end up in the application's buffer. -/
def hooked_recv (state : NetworkState) (real : Option (List Nat)) :
    NetworkState × Int × List Nat :=
  match real with
  | none => (state, SOCKET_ERROR, [])
  | some bytes =>
    let state1 :=
      if 0 < bytes.length then
        send_data_to_kore state bytes PacketType.Received
      else
        state
    (state1, (bytes.length : Int), bytes)

/-- Mirror of `hooked_send` (lib.rs lines 66-93).  `buffer` holds the bytes
at the application's pointer, `len` the `i32` length argument.  `firstRet` is
the environment's result for the unconditional initial
`orig_send(socket, buffer, 0, flags)` call and `secondRet` the result for the
direct pass-through `orig_send(socket, buffer, len, flags)` call reached only
in the not-connected branch.  Returns the updated state, the `i32` returned
to the application, and the log of original-send invocations as pairs
(length argument, bytes handed to the real downstream peer). -/
def hooked_send (state : NetworkState) (buffer : List Nat) (len : Int)
    (firstRet secondRet : Int) : NetworkState × Int × List (Int × List Nat) :=
  let ret := firstRet
  if ret ≠ SOCKET_ERROR ∧ 0 < len then
    if state.kore_alive then
      (send_data_to_kore state (buffer.take len.toNat) PacketType.Sent,
        len, [(0, [])])
    else
      (state, secondRet, [(0, []), (len, buffer.take len.toNat)])
  else
    (state, ret, [(0, [])])

/-- Environment of one iteration of the `kore_connection_main` loop: the
outcome of `TcpStream::connect`, of `client.read` (`none` = `Err`,
`some bytes` = `Ok(bytes.length)`), of the `write_all` of the drained
outbound data, and of the `write_all` of the keep-alive frame. -/
structure LoopEnv where
  connectOk : Bool
  readResult : Option (List Nat)
  writeOk : Bool
  pingOk : Bool
deriving DecidableEq

/-- Shared state plus the loop-local `Instant` variables of
`kore_connection_main` (lib.rs lines 113-114), as milliseconds. -/
structure LoopState where
  st : NetworkState
  last_ping : Nat
  last_connect_attempt : Nat
deriving DecidableEq

/-- Observable events of one loop iteration: whether `TcpStream::connect` was
called, the byte sequences passed to `write_all` on the control socket, the
byte sequences written to the `ro_server` stream, whether a keep-alive write
was attempted, and whether it succeeded. -/
structure StepLog where
  connAttempt : Bool
  koreWrites : List (List Nat)
  serverWrites : List (List Nat)
  pingAttempt : Bool
  pingSuccess : Bool
deriving DecidableEq

/-- The connect guard of lib.rs line 120:
`!state.kore_alive || last_connect_attempt.elapsed() > RECONNECT_INTERVAL`. -/
def connectAttempted (ls : LoopState) (now : Nat) : Bool :=
  !ls.st.kore_alive || decide (RECONNECT_INTERVAL < now - ls.last_connect_attempt)

/-- The connect scope of `kore_connection_main` (lib.rs lines 118-128): under
the guard `connectAttempted`, call `TcpStream::connect`; on success install
the stream and set `kore_alive`; update `last_connect_attempt` whenever the
guard fired.  Returns (state after the scope, new `last_connect_attempt`). -/
def connect_phase (ls : LoopState) (now : Nat) (connectOk : Bool) :
    NetworkState × Nat :=
  if connectAttempted ls now then
    (if connectOk then
       { ls.st with kore_client := true, kore_alive := true }
     else
       ls.st,
     now)
  else
    (ls.st, ls.last_connect_attempt)

/-- The read handling of `kore_connection_main` (lib.rs lines 135-152), in
the case where `kore_client` is present: a successful read of `n > 0` bytes
goes to `process_packet`; a read of 0 bytes does nothing; a read `Err` is
silently ignored. -/
def read_phase (s1 : NetworkState) (readResult : Option (List Nat)) :
    NetworkState × List (List Nat) :=
  match readResult with
  | some bytes => if 0 < bytes.length then process_packet bytes s1 else (s1, [])
  | none => (s1, [])

/-- The send scope of `kore_connection_main` (lib.rs lines 155-171):
`data_to_send` is a clone of a non-empty `xkore_send_buf` (the buffer is not
drained); if there is data and a client, `write_all` it, and clear the buffer
only when the write succeeded.  Returns (new state, writes attempted on the
control socket). -/
def write_phase (s2 : NetworkState) (writeOk : Bool) :
    NetworkState × List (List Nat) :=
  match (if s2.xkore_send_buf.isEmpty then none
         else some s2.xkore_send_buf : Option (List Nat)) with
  | some d =>
    if s2.kore_client then
      if writeOk then
        ({ s2 with xkore_send_buf := [] }, [d])
      else
        (s2, [d])
    else
      (s2, [])
  | none => (s2, [])

/-- One iteration of the `kore_connection_main` polling loop
(lib.rs lines 116-185), at monotonic time `now` (ms), with the environment's
answers for this iteration's system calls.  In source order: the connect
scope; then, if `kore_client` is absent, sleep and `continue` (nothing else
happens this iteration); otherwise read and process, snapshot the outbound
buffer and the `ping_needed` flag (lib.rs lines 155-161, with `ping_needed`
computed from `kore_alive` and `last_ping.elapsed() > PING_INTERVAL`), write
the outbound data, and finally (lib.rs lines 174-182) if `ping_needed` and a
client is present, `write_all` the literal frame `[K, 0, 0]` and reset
`last_ping` only when that write succeeded. -/
def kore_connection_step (ls : LoopState) (now : Nat) (env : LoopEnv) :
    LoopState × StepLog :=
  let attempt := connectAttempted ls now
  let conn := connect_phase ls now env.connectOk
  let s1 := conn.1
  let lca := conn.2
  if s1.kore_client = false then
    ({ st := s1, last_ping := ls.last_ping, last_connect_attempt := lca },
      { connAttempt := attempt, koreWrites := [], serverWrites := [],
        pingAttempt := false, pingSuccess := false })
  else
    let readStep := read_phase s1 env.readResult
    let s2 := readStep.1
    let srv := readStep.2
    let ping_needed := s2.kore_alive && decide (PING_INTERVAL < now - ls.last_ping)
    let writeStep := write_phase s2 env.writeOk
    let s3 := writeStep.1
    let kw1 := writeStep.2
    let pingA := ping_needed && s3.kore_client
    let kw2 : List (List Nat) := if pingA then [[75, 0, 0]] else []
    let pingS := pingA && env.pingOk
    let lp := if pingS then now else ls.last_ping
    ({ st := s3, last_ping := lp, last_connect_attempt := lca },
      { connAttempt := attempt, koreWrites := kw1 ++ kw2, serverWrites := srv,
        pingAttempt := pingA, pingSuccess := pingS })

/-- Times (ms) at which a keep-alive write succeeds along a run of the loop,
given the per-iteration times and environments. -/
def pingTimes (ls : LoopState) : List (Nat × LoopEnv) → List Nat
  | [] => []
  | (now, env) :: rest =>
    let r := kore_connection_step ls now env
    if r.2.pingSuccess then now :: pingTimes r.1 rest else pingTimes r.1 rest

/-- `timesMono prev ts` : the times `ts` are nondecreasing and all at least
`prev` (monotonic clock). -/
def timesMono (prev : Nat) : List Nat → Bool
  | [] => true
  | t :: rest => decide (prev ≤ t) && timesMono t rest

/-- `gapped prev ts` : consecutive entries of `prev :: ts` are more than
`PING_INTERVAL` apart. -/
def gapped (prev : Nat) : List Nat → Bool
  | [] => true
  | t :: rest => decide (prev + PING_INTERVAL < t) && gapped t rest

/-! ### Supporting lemmas about the embedded operations -/
theorem process_packet_kore_client (data : List Nat) (s : NetworkState) :
    ((process_packet data s).1).kore_client = s.kore_client := by
  unfold process_packet
  split
  · rfl
  · split <;> first | rfl | (split <;> rfl)

theorem process_packet_kore_alive (data : List Nat) (s : NetworkState) :
    ((process_packet data s).1).kore_alive = s.kore_alive := by
  unfold process_packet
  split
  · rfl
  · split <;> first | rfl | (split <;> rfl)

theorem process_packet_xkore (data : List Nat) (s : NetworkState) :
    ((process_packet data s).1).xkore_send_buf = s.xkore_send_buf := by
  unfold process_packet
  split
  · rfl
  · split <;> first | rfl | (split <;> rfl)

theorem read_phase_kore_client (s : NetworkState) (r : Option (List Nat)) :
    ((read_phase s r).1).kore_client = s.kore_client := by
  cases r with
  | none => rfl
  | some bytes =>
    by_cases h : 0 < bytes.length <;>
      simp [read_phase, h, process_packet_kore_client]

theorem read_phase_kore_alive (s : NetworkState) (r : Option (List Nat)) :
    ((read_phase s r).1).kore_alive = s.kore_alive := by
  cases r with
  | none => rfl
  | some bytes =>
    by_cases h : 0 < bytes.length <;>
      simp [read_phase, h, process_packet_kore_alive]

theorem read_phase_xkore (s : NetworkState) (r : Option (List Nat)) :
    ((read_phase s r).1).xkore_send_buf = s.xkore_send_buf := by
  cases r with
  | none => rfl
  | some bytes =>
    by_cases h : 0 < bytes.length <;>
      simp [read_phase, h, process_packet_xkore]

theorem write_phase_kore_client (s : NetworkState) (w : Bool) :
    ((write_phase s w).1).kore_client = s.kore_client := by
  unfold write_phase
  by_cases h : s.xkore_send_buf.isEmpty <;> by_cases hc : s.kore_client <;>
    by_cases hw : w <;> simp [h, hc, hw]

theorem write_phase_kore_alive (s : NetworkState) (w : Bool) :
    ((write_phase s w).1).kore_alive = s.kore_alive := by
  unfold write_phase
  by_cases h : s.xkore_send_buf.isEmpty <;> by_cases hc : s.kore_client <;>
    by_cases hw : w <;> simp [h, hc, hw]

theorem write_phase_fail (s : NetworkState) :
    write_phase s false =
      (s, if s.xkore_send_buf.isEmpty then []
          else if s.kore_client then [s.xkore_send_buf] else []) := by
  unfold write_phase
  by_cases h : s.xkore_send_buf.isEmpty <;> by_cases hc : s.kore_client <;>
    simp [h, hc]

theorem write_phase_ok (s : NetworkState) (h : s.xkore_send_buf.isEmpty = false)
    (hc : s.kore_client = true) :
    write_phase s true =
      ({ s with xkore_send_buf := [] }, [s.xkore_send_buf]) := by
  unfold write_phase
  simp [h, hc]

theorem connect_phase_client (ls : LoopState) (now : Nat) (ok : Bool) :
    ((connect_phase ls now ok).1).kore_client =
      (ls.st.kore_client || (connectAttempted ls now && ok)) := by
  unfold connect_phase
  by_cases h : connectAttempted ls now <;> by_cases hk : ok <;> simp [h, hk]

theorem connect_phase_alive (ls : LoopState) (now : Nat) (ok : Bool) :
    ((connect_phase ls now ok).1).kore_alive =
      (ls.st.kore_alive || (connectAttempted ls now && ok)) := by
  unfold connect_phase
  by_cases h : connectAttempted ls now <;> by_cases hk : ok <;> simp [h, hk]

theorem connect_phase_xkore (ls : LoopState) (now : Nat) (ok : Bool) :
    ((connect_phase ls now ok).1).xkore_send_buf = ls.st.xkore_send_buf := by
  unfold connect_phase
  by_cases h : connectAttempted ls now <;> by_cases hk : ok <;> simp [h, hk]

theorem step_alive_shape (ls : LoopState) (now : Nat) (env : LoopEnv) :
    ((kore_connection_step ls now env).1).st.kore_alive =
      (ls.st.kore_alive || (connectAttempted ls now && env.connectOk)) := by
  dsimp only [kore_connection_step]
  split
  · exact connect_phase_alive ls now env.connectOk
  · dsimp only []
    rw [write_phase_kore_alive, read_phase_kore_alive, connect_phase_alive]

theorem step_client_shape (ls : LoopState) (now : Nat) (env : LoopEnv) :
    ((kore_connection_step ls now env).1).st.kore_client =
      (ls.st.kore_client || (connectAttempted ls now && env.connectOk)) := by
  dsimp only [kore_connection_step]
  split
  · exact connect_phase_client ls now env.connectOk
  · dsimp only []
    rw [write_phase_kore_client, read_phase_kore_client, connect_phase_client]



theorem step_last_ping_shape (ls : LoopState) (now : Nat) (env : LoopEnv) :
    ((kore_connection_step ls now env).1).last_ping =
      (if ((kore_connection_step ls now env).2).pingSuccess then now
       else ls.last_ping) := by
  dsimp only [kore_connection_step]
  split
  · simp
  · rfl

theorem step_pingSuccess_gap (ls : LoopState) (now : Nat) (env : LoopEnv)
    (h : ((kore_connection_step ls now env).2).pingSuccess = true) :
    PING_INTERVAL < now - ls.last_ping := by
  dsimp only [kore_connection_step] at h
  split at h
  · simp at h
  · simp only [Bool.and_eq_true, decide_eq_true_eq] at h
    exact h.1.1.2

theorem step_ping_prompt (ls : LoopState) (now : Nat) (env : LoopEnv)
    (hclient : ls.st.kore_client = true) (halive : ls.st.kore_alive = true)
    (hgap : PING_INTERVAL < now - ls.last_ping) (hping : env.pingOk = true) :
    ((kore_connection_step ls now env).2).pingSuccess = true := by
  dsimp only [kore_connection_step]
  split
  · rename_i hcond
    rw [connect_phase_client, hclient] at hcond
    simp at hcond
  · simp only [Bool.and_eq_true, decide_eq_true_eq]
    refine ⟨⟨⟨?_, hgap⟩, ?_⟩, hping⟩
    · rw [read_phase_kore_alive, connect_phase_alive, halive]
      simp
    · rw [write_phase_kore_client, read_phase_kore_client, connect_phase_client,
        hclient]
      simp

theorem step_ping_frame (ls : LoopState) (now : Nat) (env : LoopEnv)
    (h : ((kore_connection_step ls now env).2).pingAttempt = true) :
    [75, 0, 0] ∈ ((kore_connection_step ls now env).2).koreWrites := by
  dsimp only [kore_connection_step] at h ⊢
  split at h
  · simp at h
  · rename_i hc
    rw [if_neg hc]
    dsimp only [] at h
    simp [h]

theorem timesMono_lower (prev prev' : Nat) (ts : List Nat)
    (hle : prev' ≤ prev) (h : timesMono prev ts = true) :
    timesMono prev' ts = true := by
  cases ts with
  | nil => rfl
  | cons t rest =>
    simp only [timesMono, Bool.and_eq_true, decide_eq_true_eq] at h ⊢
    exact ⟨le_trans hle h.1, h.2⟩

theorem pingTimes_gapped (inputs : List (Nat × LoopEnv)) :
    ∀ ls : LoopState, timesMono ls.last_ping (inputs.map Prod.fst) = true →
      gapped ls.last_ping (pingTimes ls inputs) = true := by
  induction inputs with
  | nil => intro ls _; rfl
  | cons p rest ih =>
    intro ls hmono
    obtain ⟨now, env⟩ := p
    simp only [List.map_cons, timesMono, Bool.and_eq_true, decide_eq_true_eq]
      at hmono
    by_cases hs : ((kore_connection_step ls now env).2).pingSuccess = true
    · have hlp : ((kore_connection_step ls now env).1).last_ping = now := by
        rw [step_last_ping_shape, hs]; simp
      simp only [pingTimes, hs, if_true]
      simp only [gapped, Bool.and_eq_true, decide_eq_true_eq]
      constructor
      · have := step_pingSuccess_gap ls now env hs
        omega
      · have := ih ((kore_connection_step ls now env).1) (by rw [hlp]; exact hmono.2)
        rwa [hlp] at this
    · have hlp : ((kore_connection_step ls now env).1).last_ping = ls.last_ping := by
        rw [step_last_ping_shape]
        simp [Bool.eq_false_iff.mpr hs]
      simp only [pingTimes, hs, if_false]
      have hmono' : timesMono ((kore_connection_step ls now env).1).last_ping
          (rest.map Prod.fst) = true := by
        rw [hlp]
        exact timesMono_lower now ls.last_ping _ hmono.1 hmono.2
      have := ih ((kore_connection_step ls now env).1) hmono'
      rwa [hlp] at this



theorem step_xkore_write_fail (ls : LoopState) (now : Nat) (env : LoopEnv)
    (hw : env.writeOk = false) :
    ((kore_connection_step ls now env).1).st.xkore_send_buf =
      ls.st.xkore_send_buf := by
  dsimp only [kore_connection_step]
  split
  · exact connect_phase_xkore ls now env.connectOk
  · rw [hw, write_phase_fail]
    dsimp only []
    rw [read_phase_xkore, connect_phase_xkore]

theorem step_write_success (ls : LoopState) (now : Nat) (env : LoopEnv)
    (hclient : ls.st.kore_client = true) (hbuf : ls.st.xkore_send_buf ≠ [])
    (hw : env.writeOk = true) :
    ((kore_connection_step ls now env).1).st.xkore_send_buf = [] ∧
      ((kore_connection_step ls now env).2).koreWrites.head? =
        some ls.st.xkore_send_buf := by
  have hx2 : ((read_phase ((connect_phase ls now env.connectOk).1)
      env.readResult).1).xkore_send_buf = ls.st.xkore_send_buf := by
    rw [read_phase_xkore, connect_phase_xkore]
  have hc2 : ((read_phase ((connect_phase ls now env.connectOk).1)
      env.readResult).1).kore_client = true := by
    rw [read_phase_kore_client, connect_phase_client, hclient]
    simp
  have hne : ((read_phase ((connect_phase ls now env.connectOk).1)
      env.readResult).1).xkore_send_buf.isEmpty = false := by
    rw [hx2]
    cases h : ls.st.xkore_send_buf with
    | nil => exact absurd h hbuf
    | cons a t => rfl
  dsimp only [kore_connection_step]
  split
  · rename_i hcond
    rw [connect_phase_client, hclient] at hcond
    simp at hcond
  · rw [hw, write_phase_ok _ hne hc2]
    dsimp only []
    rw [hx2]
    constructor
    · rfl
    · rfl

theorem send_data_to_kore_send_buf (s : NetworkState) (b : List Nat)
    (p : PacketType) :
    ((send_data_to_kore s b p).send_buf) = s.send_buf := by
  unfold send_data_to_kore
  split <;> rfl

theorem hooked_recv_send_buf (s : NetworkState) (r : Option (List Nat)) :
    ((hooked_recv s r).1).send_buf = s.send_buf := by
  cases r with
  | none => rfl
  | some bytes =>
    by_cases h : 0 < bytes.length <;>
      simp [hooked_recv, h, send_data_to_kore_send_buf]

theorem hooked_recv_delivers (s : NetworkState) (bytes : List Nat) :
    ((hooked_recv s (some bytes)).2).2 = bytes := rfl



theorem encodeFrame_header (tag : Nat) (payload : List Nat)
    (hlen : payload.length ≤ 65535) :
    encodeFrame tag payload =
      tag :: (payload.length % 256) :: (payload.length / 256) :: payload := by
  unfold encodeFrame
  have h1 : payload.length % 65536 = payload.length := Nat.mod_eq_of_lt (by omega)
  have h2 : payload.length / 256 % 256 = payload.length / 256 :=
    Nat.mod_eq_of_lt (by omega)
  rw [h1]
  show tag :: payload.length % 256 :: payload.length / 256 % 256 :: payload = _
  rw [h2]

theorem decodeFrame_encodeFrame (tag : Nat) (payload : List Nat) :
    decodeFrame (encodeFrame tag payload) = some (tag, payload) := rfl

theorem process_packet_R (a b : Nat) (payload : List Nat) (s : NetworkState) :
    process_packet (82 :: a :: b :: payload) s =
      ({ s with send_buf := s.send_buf ++ payload }, []) := by
  unfold process_packet
  rw [if_neg (by simp)]
  rfl

theorem process_packet_S (a b : Nat) (payload : List Nat) (s : NetworkState)
    (h : s.ro_server = true) :
    process_packet (83 :: a :: b :: payload) s = (s, [payload]) := by
  unfold process_packet
  rw [if_neg (by simp)]
  show (if s.ro_server then (s, [(83 :: a :: b :: payload).drop 3]) else (s, [])) = _
  rw [h]
  rfl

theorem process_packet_K (a b : Nat) (payload : List Nat) (s : NetworkState) :
    process_packet (75 :: a :: b :: payload) s = (s, []) := by
  unfold process_packet
  rw [if_neg (by simp)]
  rfl

theorem hooked_send_alive (s : NetworkState) (buffer : List Nat) (len : Int)
    (firstRet secondRet : Int) (h1 : firstRet ≠ SOCKET_ERROR) (h2 : 0 < len)
    (h3 : buffer.length = len.toNat) (halive : s.kore_alive = true) :
    hooked_send s buffer len firstRet secondRet =
      ({ s with xkore_send_buf := s.xkore_send_buf ++ encodeFrame 83 buffer },
        len, [(0, [])]) := by
  unfold hooked_send
  rw [if_pos ⟨h1, h2⟩, if_pos halive]
  unfold send_data_to_kore
  rw [if_pos halive]
  have ht : buffer.take len.toNat = buffer := by
    rw [← h3]
    exact List.take_length buffer
  rw [ht]

theorem hooked_send_dead (s : NetworkState) (buffer : List Nat) (len : Int)
    (firstRet secondRet : Int) (h1 : firstRet ≠ SOCKET_ERROR) (h2 : 0 < len)
    (h3 : buffer.length = len.toNat) (hdead : s.kore_alive = false) :
    hooked_send s buffer len firstRet secondRet =
      (s, secondRet, [(0, []), (len, buffer)]) := by
  unfold hooked_send
  rw [if_pos ⟨h1, h2⟩, if_neg (by rw [hdead]; simp)]
  have ht : buffer.take len.toNat = buffer := by
    rw [← h3]
    exact List.take_length buffer
  rw [ht]

/-! ### Claim theorems -/


/-- Claim C1 (code_bug): the spec requires bytes appended to the inbound
queue (`send_buf`) from tag-`R` frames to be copied into the application's
buffer at the next receive opportunity, as a prefix removed from the queue.
The code never does this: `hooked_recv` hands the application exactly the
real peer's bytes, and no code path ever reads or drains `send_buf`.  The
first two conjuncts show this for every call; the third evaluates the code
with a non-empty inbound queue: the queue stays `[1, 2, 3]` untouched and the
application receives only the real peer's byte `9`. -/
theorem c1_inbound_queue_never_delivered :
    (∀ (s : NetworkState) (r : Option (List Nat)),
      ((hooked_recv s r).1).send_buf = s.send_buf) ∧
    (∀ (s : NetworkState) (bytes : List Nat),
      ((hooked_recv s (some bytes)).2).2 = bytes) ∧
    hooked_recv ⟨true, true, true, [1, 2, 3], []⟩ (some [9]) =
      (⟨true, true, true, [1, 2, 3], [82, 1, 0, 9]⟩, 1, [9]) :=
  ⟨hooked_recv_send_buf, fun s bytes => hooked_recv_delivers s bytes, by decide⟩

/-- Claim C2 (code_bug): the spec requires `connected` to transition
true→false and the control-socket handle to be dropped on any read or write
failure.  The code ignores I/O errors entirely: the first conjunct shows
`kore_alive` and `kore_client` never go from true to false across any loop
iteration, whatever the environment does; the second evaluates one iteration
in which the read returns `Err` and the outbound write fails — the state is
completely unchanged, still alive, socket still present. -/
theorem c2_io_failure_ignored :
    (∀ (ls : LoopState) (now : Nat) (env : LoopEnv),
      ls.st.kore_alive ≤ ((kore_connection_step ls now env).1).st.kore_alive ∧
      ls.st.kore_client ≤ ((kore_connection_step ls now env).1).st.kore_client) ∧
    kore_connection_step ⟨⟨true, false, true, [], [10]⟩, 0, 0⟩ 100
        ⟨false, none, false, false⟩ =
      (⟨⟨true, false, true, [], [10]⟩, 0, 0⟩, ⟨false, [[10]], [], false, false⟩) := by
  constructor
  · intro ls now env
    constructor
    · rw [step_alive_shape]
      cases ls.st.kore_alive <;> simp
    · rw [step_client_shape]
      cases ls.st.kore_client <;> simp
  · decide

/-- Claim C3 (code_bug): the spec spaces connect attempts while disconnected
at least `RECONNECT_INTERVAL` (3000 ms) apart.  The guard on lib.rs line 120
is `!kore_alive || elapsed > RECONNECT_INTERVAL`, so while disconnected a
connect is attempted on every poll tick: the last conjunct shows the guard
fires whenever `kore_alive` is false, and the concrete conjuncts exhibit two
attempts 10 ms apart (both failing, state unchanged in between). -/
theorem c3_connect_spam_while_disconnected :
    (kore_connection_step ⟨⟨false, false, false, [], []⟩, 0, 0⟩ 0
      ⟨false, none, false, false⟩).2.connAttempt = true ∧
    (kore_connection_step ⟨⟨false, false, false, [], []⟩, 0, 0⟩ 0
      ⟨false, none, false, false⟩).1 = ⟨⟨false, false, false, [], []⟩, 0, 0⟩ ∧
    (kore_connection_step ⟨⟨false, false, false, [], []⟩, 0, 0⟩ 10
      ⟨false, none, false, false⟩).2.connAttempt = true ∧
    (∀ (ls : LoopState) (now : Nat),
      (!ls.st.kore_alive) ≤ connectAttempted ls now) := by
  refine ⟨by decide, by decide, by decide, ?_⟩
  intro ls now
  unfold connectAttempted
  cases ls.st.kore_alive <;> simp

/-- Claim C4 (confirmed): for tags `R` (82), `S` (83), `K` (75) and payloads
of length at most 65535, the frame produced by the encoder is exactly
`[tag][len_lo][len_hi][payload]` with the length little-endian, and decoding
it recovers the same tag and payload: `decodeFrame` returns them, and
`process_packet` routes exactly the original payload bytes (appended to
`send_buf` for `R`, written to the downstream peer for `S`, no effect
for `K`). -/
theorem c4_encode_decode_roundtrip (tag : Nat) (payload : List Nat)
    (s : NetworkState) (htag : tag = 82 ∨ tag = 83 ∨ tag = 75)
    (hlen : payload.length ≤ 65535) :
    encodeFrame tag payload =
      tag :: (payload.length % 256) :: (payload.length / 256) :: payload ∧
    decodeFrame (encodeFrame tag payload) = some (tag, payload) ∧
    (tag = 82 → process_packet (encodeFrame tag payload) s =
      ({ s with send_buf := s.send_buf ++ payload }, [])) ∧
    (tag = 83 → s.ro_server = true →
      process_packet (encodeFrame tag payload) s = (s, [payload])) ∧
    (tag = 75 → process_packet (encodeFrame tag payload) s = (s, [])) := by
  refine ⟨encodeFrame_header tag payload hlen,
    decodeFrame_encodeFrame tag payload, ?_, ?_, ?_⟩
  · rintro rfl
    rw [encodeFrame_header _ _ hlen]
    exact process_packet_R _ _ payload s
  · rintro rfl h
    rw [encodeFrame_header _ _ hlen]
    exact process_packet_S _ _ payload s h
  · rintro rfl
    rw [encodeFrame_header _ _ hlen]
    exact process_packet_K _ _ payload s

/-- Witness for C4 at tag `R`, payload `[104, 105]`, a concrete state. -/
theorem c4_roundtrip_witness :
    encodeFrame 82 [104, 105] =
      82 :: ([104, 105].length % 256) :: ([104, 105].length / 256) :: [104, 105] ∧
    decodeFrame (encodeFrame 82 [104, 105]) = some (82, [104, 105]) ∧
    (82 = 82 → process_packet (encodeFrame 82 [104, 105])
        ⟨true, true, true, [], []⟩ =
      ({ (⟨true, true, true, [], []⟩ : NetworkState) with
          send_buf := [] ++ [104, 105] }, [])) ∧
    (82 = 83 → (⟨true, true, true, [], []⟩ : NetworkState).ro_server = true →
      process_packet (encodeFrame 82 [104, 105]) ⟨true, true, true, [], []⟩ =
        (⟨true, true, true, [], []⟩, [[104, 105]])) ∧
    (82 = 75 → process_packet (encodeFrame 82 [104, 105])
        ⟨true, true, true, [], []⟩ = (⟨true, true, true, [], []⟩, [])) :=
  c4_encode_decode_roundtrip 82 [104, 105] ⟨true, true, true, [], []⟩
    (Or.inl rfl) (by decide)

/-- Claim C5 (code_bug): the spec's decode contract returns "incomplete"
when the declared length exceeds the available bytes, otherwise consumes one
frame of exactly the declared length, so that repeated decoding recognizes
every complete frame in a read buffer.  `process_packet` never reads the
length field: with declared length 1 and two bytes present it delivers both
bytes; with declared length 5 and one byte present it delivers that byte
instead of waiting; and a buffer holding two complete frames has its second
frame silently discarded. -/
theorem c5_decoder_ignores_declared_length :
    process_packet [82, 1, 0, 97, 98] ⟨true, true, true, [], []⟩ =
      (⟨true, true, true, [97, 98], []⟩, []) ∧
    process_packet [82, 5, 0, 97] ⟨true, true, true, [], []⟩ =
      (⟨true, true, true, [97], []⟩, []) ∧
    process_packet [75, 0, 0, 82, 2, 0, 97, 98] ⟨true, true, true, [], []⟩ =
      (⟨true, true, true, [], []⟩, []) := by
  decide

/-- Claim C6 (confirmed, under the premise that the interception layer's
initial zero-length real send did not return `SOCKET_ERROR` and the length is
positive): while connected the captured bytes are framed with tag `S` and
appended to `xkore_send_buf`, and the only real-send invocation carries
length 0, so nothing reaches the downstream peer directly; while disconnected
nothing is queued and the bytes flow unmodified to the real downstream peer
via `orig_send(buffer, len)`. -/
theorem c6_send_capture_or_passthrough (s : NetworkState) (buffer : List Nat)
    (len : Int) (firstRet secondRet : Int) (h1 : firstRet ≠ SOCKET_ERROR)
    (h2 : 0 < len) (h3 : buffer.length = len.toNat) :
    (s.kore_alive = true →
      hooked_send s buffer len firstRet secondRet =
        ({ s with xkore_send_buf := s.xkore_send_buf ++ encodeFrame 83 buffer },
          len, [(0, [])])) ∧
    (s.kore_alive = false →
      hooked_send s buffer len firstRet secondRet =
        (s, secondRet, [(0, []), (len, buffer)])) :=
  ⟨hooked_send_alive s buffer len firstRet secondRet h1 h2 h3,
   hooked_send_dead s buffer len firstRet secondRet h1 h2 h3⟩

/-- Witness for C6 at a connected state with buffer `[5]`. -/
theorem c6_witness :
    (((⟨true, false, true, [], []⟩ : NetworkState)).kore_alive = true →
      hooked_send ⟨true, false, true, [], []⟩ [5] 1 0 7 =
        ({ (⟨true, false, true, [], []⟩ : NetworkState) with
            xkore_send_buf := [] ++ encodeFrame 83 [5] }, 1, [(0, [])])) ∧
    (((⟨true, false, true, [], []⟩ : NetworkState)).kore_alive = false →
      hooked_send ⟨true, false, true, [], []⟩ [5] 1 0 7 =
        (⟨true, false, true, [], []⟩, 7, [(0, []), (1, [5])])) :=
  c6_send_capture_or_passthrough ⟨true, false, true, [], []⟩ [5] 1 0 7
    (by decide) (by decide) (by decide)



theorem send_data_to_kore_kore_client (s : NetworkState) (b : List Nat)
    (p : PacketType) :
    (send_data_to_kore s b p).kore_client = s.kore_client := by
  unfold send_data_to_kore
  split <;> rfl

/-- Claim C7 (confirmed): when the control-socket write of the outbound data
fails, the bytes are not lost — `xkore_send_buf` is exactly preserved (the
source clones the buffer and clears it only after `write_all` succeeds);
bytes captured afterwards are appended behind them; and on the next
iteration whose write succeeds, the first write on the control socket is the
old data followed by the newer data, after which the buffer is cleared. -/
theorem c7_failed_write_preserves_queue (ls : LoopState) (now now2 : Nat)
    (env env2 : LoopEnv) (newer : List Nat)
    (hw : env.writeOk = false) (hw2 : env2.writeOk = true)
    (hclient : ls.st.kore_client = true) (halive : ls.st.kore_alive = true)
    (hbuf : ls.st.xkore_send_buf ≠ []) :
    ((kore_connection_step ls now env).1).st.xkore_send_buf =
      ls.st.xkore_send_buf ∧
    (send_data_to_kore ((kore_connection_step ls now env).1).st newer
        PacketType.Sent).xkore_send_buf =
      ls.st.xkore_send_buf ++ encodeFrame 83 newer ∧
    ((kore_connection_step
        ⟨send_data_to_kore ((kore_connection_step ls now env).1).st newer
            PacketType.Sent,
          ((kore_connection_step ls now env).1).last_ping,
          ((kore_connection_step ls now env).1).last_connect_attempt⟩
        now2 env2).2).koreWrites.head? =
      some (ls.st.xkore_send_buf ++ encodeFrame 83 newer) ∧
    ((kore_connection_step
        ⟨send_data_to_kore ((kore_connection_step ls now env).1).st newer
            PacketType.Sent,
          ((kore_connection_step ls now env).1).last_ping,
          ((kore_connection_step ls now env).1).last_connect_attempt⟩
        now2 env2).1).st.xkore_send_buf = [] := by
  have part1 : ((kore_connection_step ls now env).1).st.xkore_send_buf =
      ls.st.xkore_send_buf := step_xkore_write_fail ls now env hw
  have alive1 : ((kore_connection_step ls now env).1).st.kore_alive = true := by
    rw [step_alive_shape, halive]
    simp
  have client1 : ((kore_connection_step ls now env).1).st.kore_client = true := by
    rw [step_client_shape, hclient]
    simp
  have part2 : (send_data_to_kore ((kore_connection_step ls now env).1).st newer
      PacketType.Sent).xkore_send_buf =
      ls.st.xkore_send_buf ++ encodeFrame 83 newer := by
    unfold send_data_to_kore
    rw [if_pos alive1]
    dsimp only []
    rw [part1]
  have client2 : (send_data_to_kore ((kore_connection_step ls now env).1).st
      newer PacketType.Sent).kore_client = true := by
    rw [send_data_to_kore_kore_client]
    exact client1
  have hbuf2 : (send_data_to_kore ((kore_connection_step ls now env).1).st
      newer PacketType.Sent).xkore_send_buf ≠ [] := by
    rw [part2]
    intro h
    rw [List.append_eq_nil] at h
    exact hbuf h.1
  have final := step_write_success
    ⟨send_data_to_kore ((kore_connection_step ls now env).1).st newer
        PacketType.Sent,
      ((kore_connection_step ls now env).1).last_ping,
      ((kore_connection_step ls now env).1).last_connect_attempt⟩
    now2 env2 client2 hbuf2 hw2
  refine ⟨part1, part2, ?_, final.1⟩
  rw [final.2]
  exact congrArg some part2



/-- Witness for C7: a failed write at `t = 0` with `[9, 9]` queued, then `[7]`
captured, then a successful write. -/
theorem c7_witness :
    ((kore_connection_step ⟨⟨true, false, true, [], [9, 9]⟩, 0, 0⟩ 0
        ⟨false, none, false, false⟩).1).st.xkore_send_buf = [9, 9] ∧
    (send_data_to_kore ((kore_connection_step ⟨⟨true, false, true, [], [9, 9]⟩,
        0, 0⟩ 0 ⟨false, none, false, false⟩).1).st [7]
        PacketType.Sent).xkore_send_buf = [9, 9] ++ encodeFrame 83 [7] ∧
    ((kore_connection_step
        ⟨send_data_to_kore ((kore_connection_step ⟨⟨true, false, true, [],
            [9, 9]⟩, 0, 0⟩ 0 ⟨false, none, false, false⟩).1).st [7]
            PacketType.Sent,
          ((kore_connection_step ⟨⟨true, false, true, [], [9, 9]⟩, 0, 0⟩ 0
            ⟨false, none, false, false⟩).1).last_ping,
          ((kore_connection_step ⟨⟨true, false, true, [], [9, 9]⟩, 0, 0⟩ 0
            ⟨false, none, false, false⟩).1).last_connect_attempt⟩
        0 ⟨false, none, true, false⟩).2).koreWrites.head? =
      some ([9, 9] ++ encodeFrame 83 [7]) ∧
    ((kore_connection_step
        ⟨send_data_to_kore ((kore_connection_step ⟨⟨true, false, true, [],
            [9, 9]⟩, 0, 0⟩ 0 ⟨false, none, false, false⟩).1).st [7]
            PacketType.Sent,
          ((kore_connection_step ⟨⟨true, false, true, [], [9, 9]⟩, 0, 0⟩ 0
            ⟨false, none, false, false⟩).1).last_ping,
          ((kore_connection_step ⟨⟨true, false, true, [], [9, 9]⟩, 0, 0⟩ 0
            ⟨false, none, false, false⟩).1).last_connect_attempt⟩
        0 ⟨false, none, true, false⟩).1).st.xkore_send_buf = [] :=
  c7_failed_write_preserves_queue ⟨⟨true, false, true, [], [9, 9]⟩, 0, 0⟩ 0 0
    ⟨false, none, false, false⟩ ⟨false, none, true, false⟩ [7]
    rfl rfl rfl rfl (by decide)

/-- Counterexample for claim C8: the spec says the keep-alive timer is reset
on each connect, so no keep-alive could be sent sooner than 5000 ms after a
connect.  Starting disconnected with the loop 6000 ms old, a single iteration
both establishes the connection (`connAttempt = true`, `kore_client` goes
false→true) and sends a keep-alive (`pingSuccess = true`, `[75, 0, 0]`
written) — a keep-alive 0 ms after connect, because `last_ping` is never
reset on connect. -/
theorem c8_counterexample_ping_at_connect :
    kore_connection_step ⟨⟨false, false, false, [], []⟩, 0, 0⟩ 6000
      ⟨true, some [], true, true⟩ =
      (⟨⟨true, false, true, [], []⟩, 6000, 6000⟩,
        ⟨true, [[75, 0, 0]], [], true, true⟩) := by
  decide

/-- Claim C8 as amended: while the bridge is connected with the socket
present, the keep-alive frame (exactly `[75, 0, 0]`) is written whenever more
than `PING_INTERVAL` (5000 ms) has elapsed since the previous successful
keep-alive write (initially: since loop start), and the timer is reset only
on a successful keep-alive write — not on connect.  Consequently, along any
run with a monotone clock, consecutive successful keep-alive writes are more
than 5000 ms apart (`gapped`), a tick past the deadline with a working socket
does send one promptly, and every keep-alive attempt writes exactly the
3-byte `K` frame. -/
theorem c8_ping_spacing (ls : LoopState) (inputs : List (Nat × LoopEnv))
    (hmono : timesMono ls.last_ping (inputs.map Prod.fst) = true) :
    gapped ls.last_ping (pingTimes ls inputs) = true ∧
    (∀ (now : Nat) (env : LoopEnv), ls.st.kore_client = true →
      ls.st.kore_alive = true → PING_INTERVAL < now - ls.last_ping →
      env.pingOk = true →
      ((kore_connection_step ls now env).2).pingSuccess = true) ∧
    (∀ (now : Nat) (env : LoopEnv),
      ((kore_connection_step ls now env).2).pingAttempt = true →
      [75, 0, 0] ∈ ((kore_connection_step ls now env).2).koreWrites) :=
  ⟨pingTimes_gapped inputs ls hmono,
   fun now env hc ha hg hp => step_ping_prompt ls now env hc ha hg hp,
   fun now env h => step_ping_frame ls now env h⟩

/-- Witness for C8: a connected state, one tick at `t = 6000` with
`last_ping = 0`; the keep-alive fires and the gap property holds. -/
theorem c8_witness :
    gapped 0 (pingTimes ⟨⟨true, false, true, [], []⟩, 0, 0⟩
      [(6000, ⟨false, none, false, true⟩)]) = true ∧
    ((kore_connection_step ⟨⟨true, false, true, [], []⟩, 0, 0⟩ 6000
      ⟨false, none, false, true⟩).2).pingSuccess = true ∧
    [75, 0, 0] ∈ ((kore_connection_step ⟨⟨true, false, true, [], []⟩, 0, 0⟩
      6000 ⟨false, none, false, true⟩).2).koreWrites := by
  have h := c8_ping_spacing ⟨⟨true, false, true, [], []⟩, 0, 0⟩
    [(6000, ⟨false, none, false, true⟩)] (by decide)
  exact ⟨h.1,
    h.2.1 6000 ⟨false, none, false, true⟩ rfl rfl (by decide) rfl,
    h.2.2 6000 ⟨false, none, false, true⟩ (by decide)⟩

/-- Claim C9 (confirmed): single complete frames from the agent are routed by
tag: `['R', 5, 0, 'h', 'e', 'l', 'l', 'o']` appends exactly the five payload
bytes to `send_buf` in order with no framing bytes; `['S', 3, 0, 'a', 'b',
'c']` with a downstream peer attached writes exactly `abc` verbatim to the
peer; a `K` frame changes neither queue and writes nothing. -/
theorem c9_single_frame_routing :
    process_packet [82, 5, 0, 104, 101, 108, 108, 111]
        ⟨true, true, true, [], []⟩ =
      (⟨true, true, true, [104, 101, 108, 108, 111], []⟩, []) ∧
    process_packet [83, 3, 0, 97, 98, 99] ⟨true, true, true, [], []⟩ =
      (⟨true, true, true, [], []⟩, [[97, 98, 99]]) ∧
    process_packet [75, 0, 0] ⟨true, true, true, [], []⟩ =
      (⟨true, true, true, [], []⟩, []) := by
  decide

/-- Claim C10 (confirmed): while connected (`kore_alive`), with a positive
length and the initial real send not failing, `hooked_send` performs exactly
one real-send invocation and its length argument is 0 — zero application
bytes reach the real downstream peer on that path — yet it returns the
caller's full requested length. -/
theorem c10_connected_send_zero_length (s : NetworkState) (buffer : List Nat)
    (len : Int) (firstRet secondRet : Int) (halive : s.kore_alive = true)
    (h1 : firstRet ≠ SOCKET_ERROR) (h2 : 0 < len) :
    ((hooked_send s buffer len firstRet secondRet).2).2 = [(0, [])] ∧
    ((hooked_send s buffer len firstRet secondRet).2).1 = len := by
  unfold hooked_send
  rw [if_pos ⟨h1, h2⟩, if_pos halive]
  exact ⟨rfl, rfl⟩

/-- Witness for C10 at a connected state. -/
theorem c10_witness :
    ((hooked_send ⟨true, false, true, [], []⟩ [5, 6] 2 0 7).2).2 = [(0, [])] ∧
    ((hooked_send ⟨true, false, true, [], []⟩ [5, 6] 2 0 7).2).1 = 2 :=
  c10_connected_send_zero_length ⟨true, false, true, [], []⟩ [5, 6] 2 0 7
    rfl (by decide) (by decide)

end NetRedirect
